import Mathlib

/-!
# VRFBasedrPBFTSealer

Shallow embedding of
`libconsensus/rotating_pbft/vrf_rpbft/VRFBasedrPBFTSealer.cpp`
(FISCO-BCOS): the four member functions `initConsensusEngine`,
`hookAfterHandleBlock`, `generateTransactionForRotating` and
`maxTxsSizeSealedInnerBlock`, written as state-passing functions over the
sealer's member variables.

Conventions of the embedding:

* `uint64_t` / `size_t` values are natural numbers; the only arithmetic that
  can wrap is the subtraction `maxTransactions - 1`, modelled by `u64Sub`.
* `std::shared_ptr` members that may be null are `Option`s; dereferencing a
  null pointer and writing a `std::vector` out of bounds have no defined
  behaviour and give `Outcome.undefinedBehaviour`.
* Everything the translation unit calls but does not define (VRF primitive,
  block chain, transaction generator, hex encoding, constants, the base class
  policy) is a field of `Collaborators`; the transaction type is a parameter.
  Of these calls only the transaction generator is modelled as able to throw;
  the others are total, and the chain head does not move during one call.
-/

namespace VRFBasedrPBFTSealer

/-! ## Machine integers -/

/-- Number of values of an unsigned 64-bit integer (`uint64_t`, `size_t`). -/
def UINT64_SIZE : Nat := 2 ^ 64

/-- Unsigned 64-bit subtraction `a - b` of two 64-bit values: the result wraps
modulo `2 ^ 64` when `a < b`. -/
def u64Sub (a b : Nat) : Nat := (a + UINT64_SIZE - b) % UINT64_SIZE

/-! ## Results of a member function -/

/-- Result of running a member function on a state `σ`:
normal return of a value together with the state reached, an exception leaving
the function (with the state reached when it was thrown), or undefined
behaviour (null dereference, out-of-bounds vector write). -/
inductive Outcome (α σ : Type) where
  | returns (value : α) (state : σ)
  | throws (exception : String) (state : σ)
  | undefinedBehaviour

/-! ## Data -/

/-- Consensus key pair of the node (`dev::KeyPair`): secret and public key as
byte strings. -/
structure KeyPair where
  secret : List Nat
  pub : List Nat

/-- The enumeration `dev::eth::Transaction::Type`. -/
inductive TransactionType where
  | NullTransaction
  | ContractCreation
  | MessageCall

/-- The engine object behind `m_pbftEngine`, with the accessors this unit
calls. `isVRFBasedrPBFTEngine` is its dynamic type (what
`std::dynamic_pointer_cast<VRFBasedrPBFTEngine>` tests);
`maxBlockTransactions` is a `uint64_t`. -/
structure PBFTEngine where
  groupId : Nat
  maxBlockTransactions : Nat
  maxBlockTransactions_lt : maxBlockTransactions < UINT64_SIZE
  keyPair : KeyPair
  nodeIdx : Nat
  isVRFBasedrPBFTEngine : Bool
  shouldRotateSealers : Bool

/-- The object built by `std::make_shared<TxGenerator>(groupId, chainId,
validBlockLimit)`. -/
structure TxGenerator where
  groupId : Nat
  chainId : Nat
  validBlockLimit : Nat

/-- Modelled from the spec: the pending block `dev::eth::Block` is declared
outside this unit. It "exposes transaction count, append, and indexed replace,
plus a mark-changed signal"; `noteChangeCount` counts how often the signal was
raised. -/
structure Block (Tx : Type) where
  transactions : List Tx
  noteChangeCount : Nat

/-- The member `m_sealing` (only its `block` is used here). -/
structure Sealing (Tx : Type) where
  block : Block Tx

/-- Member variables of `VRFBasedrPBFTSealer` read or written by this unit. -/
structure Sealer (Tx : Type) where
  m_pbftEngine : PBFTEngine
  m_vrfBasedrPBFTEngine : Option PBFTEngine
  m_txGenerator : Option TxGenerator
  m_privateKey : String
  m_vrfPublicKey : String
  m_name : String
  m_sealing : Sealing Tx

/-- What the unit calls but does not define. -/
structure Collaborators (Tx : Type) where
  /-- The base policy `PBFTSealer::maxTxsSizeSealedInnerBlock()`. -/
  PBFTSealer_maxTxsSizeSealedInnerBlock : Nat
  /-- The value of `g_BCOSConfig.chainId()`. -/
  chainId : Nat
  /-- The value of `m_txPool->maxBlockLimit()`. -/
  maxBlockLimit : Nat
  /-- The value of `m_blockChain->number()`. -/
  number : Nat
  /-- The function `m_blockChain->numberHash(n)`, a hash as bytes. -/
  numberHash : Nat → List Nat
  /-- The function `toHex` on byte strings. -/
  toHex : List Nat → String
  /-- The constant `c_privateKeyLen`. -/
  c_privateKeyLen : Nat
  /-- The VRF primitive of `ffi_vrf.h`; `none` is the null pointer. -/
  curve25519_vrf_generate_key_pair : String → Option String
  /-- The VRF primitive of `ffi_vrf.h`; `none` is the null pointer. -/
  curve25519_vrf_proof : String → String → Option String
  /-- The constant `dev::precompiled::WSM_METHOD_ROTATE_STR`. -/
  WSM_METHOD_ROTATE_STR : String
  /-- The constant `dev::precompiled::WORKING_SEALER_MGR_ADDRESS`. -/
  WORKING_SEALER_MGR_ADDRESS : Nat
  /-- The call `m_txGenerator->generateTransactionWithSig(interface, number, to,
  keyPair, type, params...)` with three string parameters; `Except.error` is
  a `std::exception` thrown by it. -/
  generateTransactionWithSig : TxGenerator → String → Nat → Nat → KeyPair →
    TransactionType → String → String → String → Except String Tx

/-! ## Operations of the pending block -/

/-- The call `block->getTransactionSize()`. -/
def Block.getTransactionSize {Tx : Type} (b : Block Tx) : Nat :=
  b.transactions.length

/-- The call `block->noteChange()`. -/
def Block.noteChange {Tx : Type} (b : Block Tx) : Block Tx :=
  { b with noteChangeCount := b.noteChangeCount + 1 }

/-- Modelled from the spec: `Block::appendTransaction` is defined outside this
unit. It appends ("block grows by one") and, as the source comment at the call
site says, "will notify updating the txsCache", that is raises the changed
signal. -/
def Block.appendTransaction {Tx : Type} (b : Block Tx) (tx : Tx) : Block Tx :=
  Block.noteChange { b with transactions := b.transactions ++ [tx] }

/-- The statement `(*(block->transactions()))[i] = tx`: an unchecked
`std::vector::operator[]` write, defined only for `i < size()`. -/
def Block.writeTransaction {Tx : Type} (b : Block Tx) (i : Nat) (tx : Tx) :
    Option (Block Tx) :=
  if i < b.transactions.length then
    some { b with transactions := b.transactions.set i tx }
  else
    none

/-! ## The member functions -/

/-- The function `VRFBasedrPBFTSealer::initConsensusEngine` (source lines
37-63). The base call `PBFTSealer::initConsensusEngine()` touches none of the
members modelled here. -/
def initConsensusEngine {Tx : Type} (c : Collaborators Tx) (s : Sealer Tx) :
    Outcome Unit (Sealer Tx) :=
  let threadName := "rPBFTSeal-" ++ toString s.m_pbftEngine.groupId
  let s1 := { s with m_name := threadName }
  -- convert PBFTEngine into VRFBasedrPBFTEngine
  let s2 := { s1 with
    m_vrfBasedrPBFTEngine :=
      if s1.m_pbftEngine.isVRFBasedrPBFTEngine then some s1.m_pbftEngine else none }
  -- create txGenerator
  let s3 := { s2 with
    m_txGenerator := some
      { groupId := s2.m_pbftEngine.groupId
        chainId := c.chainId
        validBlockLimit := c.maxBlockLimit / 2 } }
  -- get private key and generate vrf-public-key
  match s3.m_vrfBasedrPBFTEngine with
  | none => Outcome.undefinedBehaviour
  | some e =>
    let s4 := { s3 with
      m_privateKey := c.toHex (e.keyPair.secret.take c.c_privateKeyLen) }
    match c.curve25519_vrf_generate_key_pair s4.m_privateKey with
    | none => Outcome.throws "InitVRFPublicKeyFailed" s4
    | some vrfPublicKey =>
      Outcome.returns () { s4 with m_vrfPublicKey := vrfPublicKey }

/-- The function `VRFBasedrPBFTSealer::generateTransactionForRotating` (source
lines 79-131). Every `std::exception` raised inside the `try` block is caught
and turned into `return false`. -/
def generateTransactionForRotating {Tx : Type} (c : Collaborators Tx)
    (s : Sealer Tx) : Outcome Bool (Sealer Tx) :=
  -- get VRF proof
  let blockNumber := c.number
  let blockHash := c.numberHash blockNumber
  let blockHashStr := c.toHex blockHash
  match c.curve25519_vrf_proof s.m_privateKey blockHashStr with
  | none => Outcome.returns false s
  | some vrfProof =>
    -- generate "rotateWorkingSealer" transaction
    match s.m_txGenerator, s.m_vrfBasedrPBFTEngine with
    | some txGenerator, some engine =>
      match c.generateTransactionWithSig txGenerator c.WSM_METHOD_ROTATE_STR
          c.number c.WORKING_SEALER_MGR_ADDRESS engine.keyPair
          TransactionType.MessageCall s.m_vrfPublicKey blockHashStr vrfProof with
      | Except.error _ => Outcome.returns false s
      | Except.ok generatedTx =>
        let maxTransacitonSize := s.m_pbftEngine.maxBlockTransactions
        if s.m_sealing.block.getTransactionSize < maxTransacitonSize then
          Outcome.returns true
            { s with m_sealing :=
                { block := s.m_sealing.block.appendTransaction generatedTx } }
        -- update the last transaction
        else
          match s.m_sealing.block.writeTransaction
              (u64Sub maxTransacitonSize 1) generatedTx with
          | none => Outcome.undefinedBehaviour
          | some b =>
            Outcome.returns true { s with m_sealing := { block := b.noteChange } }
    | _, _ => Outcome.undefinedBehaviour

/-- The function `VRFBasedrPBFTSealer::hookAfterHandleBlock` (source lines
65-77). -/
def hookAfterHandleBlock {Tx : Type} (c : Collaborators Tx) (s : Sealer Tx) :
    Outcome Bool (Sealer Tx) :=
  match s.m_vrfBasedrPBFTEngine with
  | none => Outcome.undefinedBehaviour
  | some engine =>
    if !engine.shouldRotateSealers then
      Outcome.returns true s
    else
      -- generate transaction exceptioned
      match generateTransactionForRotating c s with
      | Outcome.returns r s1 =>
        if !r then Outcome.returns false s1 else Outcome.returns true s1
      | Outcome.throws x s1 => Outcome.throws x s1
      | Outcome.undefinedBehaviour => Outcome.undefinedBehaviour

/-- The function `VRFBasedrPBFTSealer::maxTxsSizeSealedInnerBlock` (source
lines 133-147). -/
def maxTxsSizeSealedInnerBlock {Tx : Type} (c : Collaborators Tx)
    (s : Sealer Tx) : Outcome Nat (Sealer Tx) :=
  match s.m_vrfBasedrPBFTEngine with
  | none => Outcome.undefinedBehaviour
  | some engine =>
    if !engine.shouldRotateSealers then
      Outcome.returns c.PBFTSealer_maxTxsSizeSealedInnerBlock s
    else
      let maxTransactions := s.m_pbftEngine.maxBlockTransactions
      if c.PBFTSealer_maxTxsSizeSealedInnerBlock ≥ maxTransactions then
        Outcome.returns (u64Sub maxTransactions 1) s
      else
        Outcome.returns c.PBFTSealer_maxTxsSizeSealedInnerBlock s

/-! ## Derived notions used by the statements -/

/-- The transaction-generator call made by `generateTransactionForRotating` for
a given generator, engine handle and proof: method `WSM_METHOD_ROTATE_STR`,
the chain's current block number, target `WORKING_SEALER_MGR_ADDRESS`, the
engine's key pair, type `MessageCall` and the parameters
(VRF public key, hex of the current block's hash, proof). -/
def rotatingTransaction {Tx : Type} (c : Collaborators Tx) (s : Sealer Tx)
    (txGenerator : TxGenerator) (engine : PBFTEngine) (vrfProof : String) :
    Except String Tx :=
  c.generateTransactionWithSig txGenerator c.WSM_METHOD_ROTATE_STR c.number
    c.WORKING_SEALER_MGR_ADDRESS engine.keyPair TransactionType.MessageCall
    s.m_vrfPublicKey (c.toHex (c.numberHash c.number)) vrfProof

/-- A rotation round of the sealer `s` is successful with transaction `tx`:
the engine handle and the generator are set, the VRF proof over the hex of the
current block's hash is produced, and the transaction is built (no error). -/
def SuccessfulRound {Tx : Type} (c : Collaborators Tx) (s : Sealer Tx) (tx : Tx) :
    Prop :=
  ∃ txGenerator engine vrfProof,
    s.m_txGenerator = some txGenerator ∧
    s.m_vrfBasedrPBFTEngine = some engine ∧
    c.curve25519_vrf_proof s.m_privateKey (c.toHex (c.numberHash c.number))
      = some vrfProof ∧
    rotatingTransaction c s txGenerator engine vrfProof = Except.ok tx

/-- Rotation is pending for the sealer: its engine handle is set and
`shouldRotateSealers()` is true. -/
def RotationPending {Tx : Type} (s : Sealer Tx) : Prop :=
  ∃ engine, s.m_vrfBasedrPBFTEngine = some engine ∧ engine.shouldRotateSealers = true

/-! ## A concrete instance

A small transaction type and collaborators on which the functions above can be
evaluated. -/

/-- A transaction that records what it was built from. -/
structure RecordedTx where
  method : String
  blockLimit : Nat
  target : Nat
  sender : List Nat
  params : List String
deriving DecidableEq

/-- An ordinary (non-rotation) transaction numbered `n`. -/
def ordinaryTx (n : Nat) : RecordedTx :=
  { method := "transfer", blockLimit := 0, target := n, sender := [], params := [] }

/-- Collaborators with base policy `base`, chain head number 7 with hash bytes
`[171, 205]`, a VRF primitive that yields `vrfProof` and a generator that
fails iff `generatorFails`. -/
def exampleCollaborators (base : Nat) (vrfProof : Option String)
    (generatorFails : Bool) : Collaborators RecordedTx :=
  { PBFTSealer_maxTxsSizeSealedInnerBlock := base
    chainId := 1
    maxBlockLimit := 1000
    number := 7
    numberHash := fun _ => [171, 205]
    toHex := fun bytes => String.join (bytes.map fun b => toString b)
    c_privateKeyLen := 32
    curve25519_vrf_generate_key_pair := fun _ => some "pk"
    curve25519_vrf_proof := fun _ _ => vrfProof
    WSM_METHOD_ROTATE_STR := "rotateWorkingSealer"
    WORKING_SEALER_MGR_ADDRESS := 4104
    generateTransactionWithSig := fun g method number target keyPair _ p1 p2 p3 =>
      if generatorFails then Except.error "sign failed"
      else Except.ok
        { method := method, blockLimit := number + g.validBlockLimit, target := target
          sender := keyPair.pub, params := [p1, p2, p3] } }

/-- An engine with hard cap `cap` (as a 64-bit value) and rotation decision
`rotate`. -/
def exampleEngine (cap : Nat) (rotate : Bool) : PBFTEngine :=
  { groupId := 1
    maxBlockTransactions := cap % UINT64_SIZE
    maxBlockTransactions_lt := Nat.mod_lt cap (Nat.pos_of_ne_zero (by decide))
    keyPair := { secret := [1, 2], pub := [3, 4] }
    nodeIdx := 0
    isVRFBasedrPBFTEngine := true
    shouldRotateSealers := rotate }

/-- An initialised sealer over `exampleEngine` whose pending block holds
`txs`. -/
def exampleSealer (cap : Nat) (rotate : Bool) (txs : List RecordedTx) :
    Sealer RecordedTx :=
  { m_pbftEngine := exampleEngine cap rotate
    m_vrfBasedrPBFTEngine := some (exampleEngine cap rotate)
    m_txGenerator := some { groupId := 1, chainId := 1, validBlockLimit := 500 }
    m_privateKey := "0102"
    m_vrfPublicKey := "pk"
    m_name := "rPBFTSeal-1"
    m_sealing := { block := { transactions := txs, noteChangeCount := 0 } } }

/-- The rotation transaction built by `exampleCollaborators` for
`exampleSealer` when the proof is `"proof"`. -/
def exampleRotatingTx : RecordedTx :=
  { method := "rotateWorkingSealer", blockLimit := 507, target := 4104
    sender := [3, 4], params := ["pk", "171205", "proof"] }

/-- A sealer before `initConsensusEngine` has run: no engine handle, no
transaction generator, empty keys. Its engine is a `VRFBasedrPBFTEngine` iff
`vrfBased`. -/
def exampleFreshSealer (vrfBased : Bool) : Sealer RecordedTx :=
  { m_pbftEngine := { exampleEngine 1000 false with isVRFBasedrPBFTEngine := vrfBased }
    m_vrfBasedrPBFTEngine := none
    m_txGenerator := none
    m_privateKey := ""
    m_vrfPublicKey := ""
    m_name := ""
    m_sealing := { block := { transactions := [], noteChangeCount := 0 } } }

/-- Collaborators whose VRF key generation yields `vrfPublicKey` (`none` is
the null pointer) and whose transaction pool has maximum block limit
`maxBlockLimit`. -/
def exampleInitCollaborators (vrfPublicKey : Option String) (maxBlockLimit : Nat) :
    Collaborators RecordedTx :=
  { exampleCollaborators 1000 none false with
    curve25519_vrf_generate_key_pair := fun _ => vrfPublicKey
    maxBlockLimit := maxBlockLimit }

/-! ## Auxiliary lemmas -/

theorem u64Sub_one_of_pos (cap : Nat) (h1 : 1 ≤ cap) (h2 : cap < UINT64_SIZE) :
    u64Sub cap 1 = cap - 1 := by
  unfold u64Sub UINT64_SIZE at *
  omega

theorem u64Sub_zero_one : u64Sub 0 1 = 18446744073709551615 := by
  decide

/-- On a successful round the insertion step alone decides the result of
`generateTransactionForRotating`. -/
theorem generateTransactionForRotating_of_success {Tx : Type}
    (c : Collaborators Tx) (s : Sealer Tx) (tx : Tx)
    (hok : SuccessfulRound c s tx) :
    generateTransactionForRotating c s =
      if s.m_sealing.block.getTransactionSize < s.m_pbftEngine.maxBlockTransactions then
        Outcome.returns true
          { s with m_sealing := { block := s.m_sealing.block.appendTransaction tx } }
      else
        match s.m_sealing.block.writeTransaction
            (u64Sub s.m_pbftEngine.maxBlockTransactions 1) tx with
        | none => Outcome.undefinedBehaviour
        | some b => Outcome.returns true { s with m_sealing := { block := b.noteChange } } := by
  obtain ⟨g, e, p, hg, he, hp, htx⟩ := hok
  unfold rotatingTransaction at htx
  unfold generateTransactionForRotating
  simp only [hp, hg, he, htx]

/-- With rotation pending the hook returns what
`generateTransactionForRotating` returns. -/
theorem hookAfterHandleBlock_of_pending {Tx : Type} (c : Collaborators Tx)
    (s : Sealer Tx) (hrot : RotationPending s) (r : Bool) (s1 : Sealer Tx)
    (hgen : generateTransactionForRotating c s = Outcome.returns r s1) :
    hookAfterHandleBlock c s = Outcome.returns r s1 := by
  obtain ⟨e, he, hr⟩ := hrot
  unfold hookAfterHandleBlock
  simp only [he, hr, hgen]
  cases r <;> simp

/-- With rotation pending, undefined behaviour of
`generateTransactionForRotating` is undefined behaviour of the hook. -/
theorem hookAfterHandleBlock_undefined {Tx : Type} (c : Collaborators Tx)
    (s : Sealer Tx) (hrot : RotationPending s)
    (hgen : generateTransactionForRotating c s = Outcome.undefinedBehaviour) :
    hookAfterHandleBlock c s = Outcome.undefinedBehaviour := by
  obtain ⟨e, he, hr⟩ := hrot
  unfold hookAfterHandleBlock
  simp only [he, hr, hgen]
  simp

/-- Append branch of a successful round. -/
theorem generateTransactionForRotating_append {Tx : Type}
    (c : Collaborators Tx) (s : Sealer Tx) (tx : Tx)
    (hok : SuccessfulRound c s tx)
    (hlt : s.m_sealing.block.getTransactionSize < s.m_pbftEngine.maxBlockTransactions) :
    generateTransactionForRotating c s =
      Outcome.returns true
        { s with m_sealing := { block := s.m_sealing.block.appendTransaction tx } } := by
  rw [generateTransactionForRotating_of_success c s tx hok, if_pos hlt]

/-- Overwrite branch of a successful round, for a hard cap of at least one. -/
theorem generateTransactionForRotating_overwrite {Tx : Type}
    (c : Collaborators Tx) (s : Sealer Tx) (tx : Tx)
    (hok : SuccessfulRound c s tx)
    (hge : ¬ s.m_sealing.block.getTransactionSize < s.m_pbftEngine.maxBlockTransactions)
    (hcap : 1 ≤ s.m_pbftEngine.maxBlockTransactions) :
    generateTransactionForRotating c s =
      Outcome.returns true
        { s with m_sealing := { block :=
            { transactions := s.m_sealing.block.transactions.set
                (s.m_pbftEngine.maxBlockTransactions - 1) tx
              noteChangeCount := s.m_sealing.block.noteChangeCount + 1 } } } := by
  rw [generateTransactionForRotating_of_success c s tx hok, if_neg hge,
    u64Sub_one_of_pos _ hcap s.m_pbftEngine.maxBlockTransactions_lt]
  have hidx : s.m_pbftEngine.maxBlockTransactions - 1 < s.m_sealing.block.transactions.length := by
    unfold Block.getTransactionSize at hge
    omega
  simp only [Block.writeTransaction, if_pos hidx, Block.noteChange]

/-- Overwrite branch of a successful round when the hard cap is zero: the
index wraps to `2 ^ 64 - 1` and the write is out of bounds. -/
theorem generateTransactionForRotating_cap_zero {Tx : Type}
    (c : Collaborators Tx) (s : Sealer Tx) (tx : Tx)
    (hok : SuccessfulRound c s tx)
    (hcap : s.m_pbftEngine.maxBlockTransactions = 0)
    (hlen : s.m_sealing.block.transactions.length < UINT64_SIZE - 1) :
    generateTransactionForRotating c s = Outcome.undefinedBehaviour := by
  rw [generateTransactionForRotating_of_success c s tx hok, hcap, if_neg (Nat.not_lt_zero _)]
  have hidx : ¬ u64Sub 0 1 < s.m_sealing.block.transactions.length := by
    rw [u64Sub_zero_one]
    unfold UINT64_SIZE at hlen
    omega
  simp only [Block.writeTransaction, if_neg hidx]

/-! ## The capacity-reporting override -/

/-- C1: with the engine handle set, `maxTxsSizeSealedInnerBlock` returns the
base policy value when no rotation is pending; when rotation is pending it
returns `cap - 1` (the 64-bit unsigned subtraction of the source, equal to the
natural number `cap - 1` as soon as `cap ≥ 1`) if `base ≥ cap`, and `base`
unchanged if `base < cap`. The sealer state is left as it was. -/
theorem maxTxsSizeSealedInnerBlock_policy {Tx : Type} (c : Collaborators Tx)
    (s : Sealer Tx) (engine : PBFTEngine)
    (hengine : s.m_vrfBasedrPBFTEngine = some engine) :
    (engine.shouldRotateSealers = false →
      maxTxsSizeSealedInnerBlock c s =
        Outcome.returns c.PBFTSealer_maxTxsSizeSealedInnerBlock s) ∧
    (engine.shouldRotateSealers = true →
      c.PBFTSealer_maxTxsSizeSealedInnerBlock ≥ s.m_pbftEngine.maxBlockTransactions →
      maxTxsSizeSealedInnerBlock c s =
          Outcome.returns (u64Sub s.m_pbftEngine.maxBlockTransactions 1) s ∧
        (1 ≤ s.m_pbftEngine.maxBlockTransactions →
          u64Sub s.m_pbftEngine.maxBlockTransactions 1 =
            s.m_pbftEngine.maxBlockTransactions - 1)) ∧
    (engine.shouldRotateSealers = true →
      c.PBFTSealer_maxTxsSizeSealedInnerBlock < s.m_pbftEngine.maxBlockTransactions →
      maxTxsSizeSealedInnerBlock c s =
        Outcome.returns c.PBFTSealer_maxTxsSizeSealedInnerBlock s) := by
  refine ⟨?_, ?_, ?_⟩
  · intro hr
    unfold maxTxsSizeSealedInnerBlock
    simp [hengine, hr]
  · intro hr hge
    refine ⟨?_, fun h1 => u64Sub_one_of_pos _ h1 s.m_pbftEngine.maxBlockTransactions_lt⟩
    unfold maxTxsSizeSealedInnerBlock
    simp only [hengine, hr]
    simp [hge]
  · intro hr hlt
    unfold maxTxsSizeSealedInnerBlock
    simp only [hengine, hr]
    simp [hlt]

/-- Example B of the specification: hard cap 1000, base value 500, rotation
pending: the override returns 500. -/
theorem maxTxsSizeSealedInnerBlock_policy_witness :
    (exampleSealer 1000 true []).m_vrfBasedrPBFTEngine
        = some (exampleEngine 1000 true) ∧
      (exampleEngine 1000 true).shouldRotateSealers = true ∧
      500 < (exampleSealer 1000 true []).m_pbftEngine.maxBlockTransactions ∧
      maxTxsSizeSealedInnerBlock (exampleCollaborators 500 none false)
          (exampleSealer 1000 true []) =
        Outcome.returns 500 (exampleSealer 1000 true []) :=
  ⟨rfl, rfl, by decide,
    (maxTxsSizeSealedInnerBlock_policy (exampleCollaborators 500 none false)
      (exampleSealer 1000 true []) (exampleEngine 1000 true)
      rfl).2.2 rfl (by decide)⟩

/-! ## Insertion of the rotation transaction -/

/-- Writing the last slot of a non-empty list makes the written value the last
element. -/
theorem getLast?_set_last {α : Type} (l : List α) (a : α) (h : 1 ≤ l.length) :
    (l.set (l.length - 1) a).getLast? = some a := by
  rw [List.getLast?_eq_getElem?, List.length_set, List.getElem?_set_self]
  omega

/-- C2: for a pending block whose transaction count is strictly below
`maxBlockTransactions`, with rotation pending and a successful round (proof
produced, transaction built), the hook returns true, the block holds one more
transaction (the old list followed by the new one), and its last element is
the rotation transaction, built with the hex of the current block's hash as
message. -/
theorem hookAfterHandleBlock_append_path {Tx : Type} (c : Collaborators Tx)
    (s : Sealer Tx) (tx : Tx) (hrot : RotationPending s)
    (hok : SuccessfulRound c s tx)
    (hlt : s.m_sealing.block.getTransactionSize < s.m_pbftEngine.maxBlockTransactions) :
    ∃ s1, hookAfterHandleBlock c s = Outcome.returns true s1 ∧
      s1.m_sealing.block.getTransactionSize = s.m_sealing.block.getTransactionSize + 1 ∧
      s1.m_sealing.block.transactions.getLast? = some tx ∧
      s1.m_sealing.block.transactions = s.m_sealing.block.transactions ++ [tx] := by
  refine ⟨_, hookAfterHandleBlock_of_pending c s hrot true _
    (generateTransactionForRotating_append c s tx hok hlt), ?_, ?_, ?_⟩
  · simp [Block.getTransactionSize, Block.appendTransaction, Block.noteChange]
  · simp [Block.appendTransaction, Block.noteChange]
  · simp [Block.appendTransaction, Block.noteChange]

/-- Example A of the specification: 998 transactions under a limit of 999 end
as 999 transactions, the last being the rotation transaction. -/
theorem hookAfterHandleBlock_append_path_witness :
    RotationPending (exampleSealer 999 true ((List.range 998).map ordinaryTx)) ∧
    SuccessfulRound (exampleCollaborators 999 (some "proof") false)
      (exampleSealer 999 true ((List.range 998).map ordinaryTx))
      exampleRotatingTx ∧
    ∃ s1, hookAfterHandleBlock (exampleCollaborators 999 (some "proof") false)
        (exampleSealer 999 true ((List.range 998).map ordinaryTx))
          = Outcome.returns true s1 ∧
      s1.m_sealing.block.getTransactionSize =
        (exampleSealer 999 true
          ((List.range 998).map ordinaryTx)).m_sealing.block.getTransactionSize + 1 ∧
      s1.m_sealing.block.transactions.getLast? = some exampleRotatingTx ∧
      s1.m_sealing.block.transactions =
        (exampleSealer 999 true
          ((List.range 998).map ordinaryTx)).m_sealing.block.transactions
          ++ [exampleRotatingTx] :=
  ⟨⟨_, rfl, rfl⟩, ⟨_, _, "proof", rfl, rfl, rfl, rfl⟩,
    hookAfterHandleBlock_append_path (exampleCollaborators 999 (some "proof") false)
      (exampleSealer 999 true ((List.range 998).map ordinaryTx))
      exampleRotatingTx ⟨_, rfl, rfl⟩ ⟨_, _, "proof", rfl, rfl, rfl, rfl⟩
      (by simp [Block.getTransactionSize, exampleSealer, exampleEngine, UINT64_SIZE])⟩

/-- C3, as stated, fails for the hard cap 0: the empty pending block has
count 0 = cap, rotation is pending, the proof is produced and the transaction
built, yet the overwrite branch writes index `0 - 1 = 2 ^ 64 - 1` of an empty
vector, so the hook has no defined result and no block whose last element is
the rotation transaction is returned. -/
theorem hookAfterHandleBlock_overwrite_path_counterexample :
    (exampleSealer 0 true []).m_sealing.block.getTransactionSize =
      (exampleSealer 0 true []).m_pbftEngine.maxBlockTransactions ∧
    RotationPending (exampleSealer 0 true []) ∧
    SuccessfulRound (exampleCollaborators 0 (some "proof") false)
      (exampleSealer 0 true []) exampleRotatingTx ∧
    hookAfterHandleBlock (exampleCollaborators 0 (some "proof") false)
      (exampleSealer 0 true []) = Outcome.undefinedBehaviour ∧
    ¬ ∃ s1, hookAfterHandleBlock (exampleCollaborators 0 (some "proof") false)
        (exampleSealer 0 true []) = Outcome.returns true s1 ∧
      s1.m_sealing.block.transactions.getLast? = some exampleRotatingTx :=
  ⟨rfl, ⟨_, rfl, rfl⟩, ⟨_, _, "proof", rfl, rfl, rfl, rfl⟩, rfl,
    fun ⟨_, h, _⟩ => Outcome.noConfusion
      ((show hookAfterHandleBlock (exampleCollaborators 0 (some "proof") false)
          (exampleSealer 0 true []) = Outcome.undefinedBehaviour from rfl).symm.trans h)⟩

/-- C3 (amended): for a hard cap of at least one and a pending block whose
transaction count equals `maxBlockTransactions`, with rotation pending and a
successful round, the hook returns true, the count is unchanged, the last
element is the rotation transaction, and `noteChange` has been raised once. -/
theorem hookAfterHandleBlock_overwrite_path {Tx : Type} (c : Collaborators Tx)
    (s : Sealer Tx) (tx : Tx) (hrot : RotationPending s)
    (hok : SuccessfulRound c s tx)
    (hcap : 1 ≤ s.m_pbftEngine.maxBlockTransactions)
    (heq : s.m_sealing.block.getTransactionSize = s.m_pbftEngine.maxBlockTransactions) :
    ∃ s1, hookAfterHandleBlock c s = Outcome.returns true s1 ∧
      s1.m_sealing.block.getTransactionSize = s.m_sealing.block.getTransactionSize ∧
      s1.m_sealing.block.transactions.getLast? = some tx ∧
      s1.m_sealing.block.noteChangeCount = s.m_sealing.block.noteChangeCount + 1 := by
  refine ⟨_, hookAfterHandleBlock_of_pending c s hrot true _
    (generateTransactionForRotating_overwrite c s tx hok (by omega) hcap), ?_, ?_, rfl⟩
  · simp [Block.getTransactionSize]
  · unfold Block.getTransactionSize at heq
    show (s.m_sealing.block.transactions.set
      (s.m_pbftEngine.maxBlockTransactions - 1) tx).getLast? = some tx
    rw [← heq]
    exact getLast?_set_last _ _ (by omega)

/-- Example C of the specification: a 1000/1000 block keeps 1000 transactions
and ends with the rotation transaction. -/
theorem hookAfterHandleBlock_overwrite_path_witness :
    RotationPending (exampleSealer 1000 true ((List.range 1000).map ordinaryTx)) ∧
    SuccessfulRound (exampleCollaborators 1000 (some "proof") false)
      (exampleSealer 1000 true ((List.range 1000).map ordinaryTx))
      exampleRotatingTx ∧
    ∃ s1, hookAfterHandleBlock (exampleCollaborators 1000 (some "proof") false)
        (exampleSealer 1000 true ((List.range 1000).map ordinaryTx))
          = Outcome.returns true s1 ∧
      s1.m_sealing.block.getTransactionSize =
        (exampleSealer 1000 true
          ((List.range 1000).map ordinaryTx)).m_sealing.block.getTransactionSize ∧
      s1.m_sealing.block.transactions.getLast? = some exampleRotatingTx ∧
      s1.m_sealing.block.noteChangeCount =
        (exampleSealer 1000 true
          ((List.range 1000).map ordinaryTx)).m_sealing.block.noteChangeCount + 1 :=
  ⟨⟨_, rfl, rfl⟩, ⟨_, _, "proof", rfl, rfl, rfl, rfl⟩,
    hookAfterHandleBlock_overwrite_path (exampleCollaborators 1000 (some "proof") false)
      (exampleSealer 1000 true ((List.range 1000).map ordinaryTx))
      exampleRotatingTx ⟨_, rfl, rfl⟩ ⟨_, _, "proof", rfl, rfl, rfl, rfl⟩
      (by simp [exampleSealer, exampleEngine, UINT64_SIZE])
      (by simp [Block.getTransactionSize, exampleSealer, exampleEngine, UINT64_SIZE])⟩

/-! ## Rounds that insert nothing -/

/-- C4: when the engine handle is set and `shouldRotateSealers()` is false,
the hook returns true at once and the sealer state, hence the pending block's
transaction list and count, is exactly the one before the call. -/
theorem hookAfterHandleBlock_no_rotation {Tx : Type} (c : Collaborators Tx)
    (s : Sealer Tx) (engine : PBFTEngine)
    (hengine : s.m_vrfBasedrPBFTEngine = some engine)
    (hno : engine.shouldRotateSealers = false) :
    ∃ s1, hookAfterHandleBlock c s = Outcome.returns true s1 ∧ s1 = s ∧
      s1.m_sealing.block.transactions = s.m_sealing.block.transactions ∧
      s1.m_sealing.block.getTransactionSize = s.m_sealing.block.getTransactionSize := by
  refine ⟨s, ?_, rfl, rfl, rfl⟩
  unfold hookAfterHandleBlock
  simp [hengine, hno]

/-- A block of three ordinary transactions is untouched when no rotation is
pending, even though proof and transaction could be produced. -/
theorem hookAfterHandleBlock_no_rotation_witness :
    (exampleEngine 1000 false).shouldRotateSealers = false ∧
    ∃ s1, hookAfterHandleBlock (exampleCollaborators 1000 (some "proof") false)
        (exampleSealer 1000 false ((List.range 3).map ordinaryTx))
          = Outcome.returns true s1 ∧
      s1 = exampleSealer 1000 false ((List.range 3).map ordinaryTx) ∧
      s1.m_sealing.block.transactions =
        (exampleSealer 1000 false
          ((List.range 3).map ordinaryTx)).m_sealing.block.transactions ∧
      s1.m_sealing.block.getTransactionSize =
        (exampleSealer 1000 false
          ((List.range 3).map ordinaryTx)).m_sealing.block.getTransactionSize :=
  ⟨rfl, hookAfterHandleBlock_no_rotation (exampleCollaborators 1000 (some "proof") false)
    (exampleSealer 1000 false ((List.range 3).map ordinaryTx))
    (exampleEngine 1000 false) rfl rfl⟩

/-- C5: with rotation pending, if the VRF proof call returns null, or the
proof is produced and the transaction generator raises an error, then both
`generateTransactionForRotating` and `hookAfterHandleBlock` return false
(a normal return: no exception leaves them) and the sealer state, hence the
pending block's transaction list and count, is unchanged. -/
theorem soft_failure_isolation {Tx : Type} (c : Collaborators Tx) (s : Sealer Tx)
    (hrot : RotationPending s)
    (hfail :
      c.curve25519_vrf_proof s.m_privateKey (c.toHex (c.numberHash c.number)) = none ∨
      ∃ txGenerator engine vrfProof err,
        s.m_txGenerator = some txGenerator ∧
        s.m_vrfBasedrPBFTEngine = some engine ∧
        c.curve25519_vrf_proof s.m_privateKey (c.toHex (c.numberHash c.number))
          = some vrfProof ∧
        rotatingTransaction c s txGenerator engine vrfProof = Except.error err) :
    generateTransactionForRotating c s = Outcome.returns false s ∧
    hookAfterHandleBlock c s = Outcome.returns false s := by
  have hgen : generateTransactionForRotating c s = Outcome.returns false s := by
    rcases hfail with hnone | ⟨g, e, p, err, hg, he, hp, herr⟩
    · unfold generateTransactionForRotating
      simp only [hnone]
    · unfold rotatingTransaction at herr
      unfold generateTransactionForRotating
      simp only [hp, hg, he, herr]
  exact ⟨hgen, hookAfterHandleBlock_of_pending c s hrot false s hgen⟩

/-- Both soft failures on a block of three ordinary transactions: a null proof
(first collaborators) and a failing generator (second collaborators). -/
theorem soft_failure_isolation_witness :
    RotationPending (exampleSealer 1000 true ((List.range 3).map ordinaryTx)) ∧
    (generateTransactionForRotating (exampleCollaborators 1000 none false)
        (exampleSealer 1000 true ((List.range 3).map ordinaryTx))
        = Outcome.returns false
          (exampleSealer 1000 true ((List.range 3).map ordinaryTx)) ∧
      hookAfterHandleBlock (exampleCollaborators 1000 none false)
        (exampleSealer 1000 true ((List.range 3).map ordinaryTx))
        = Outcome.returns false
          (exampleSealer 1000 true ((List.range 3).map ordinaryTx))) ∧
    (generateTransactionForRotating (exampleCollaborators 1000 (some "proof") true)
        (exampleSealer 1000 true ((List.range 3).map ordinaryTx))
        = Outcome.returns false
          (exampleSealer 1000 true ((List.range 3).map ordinaryTx)) ∧
      hookAfterHandleBlock (exampleCollaborators 1000 (some "proof") true)
        (exampleSealer 1000 true ((List.range 3).map ordinaryTx))
        = Outcome.returns false
          (exampleSealer 1000 true ((List.range 3).map ordinaryTx))) :=
  ⟨⟨_, rfl, rfl⟩,
    soft_failure_isolation (exampleCollaborators 1000 none false)
      (exampleSealer 1000 true ((List.range 3).map ordinaryTx))
      ⟨_, rfl, rfl⟩ (Or.inl rfl),
    soft_failure_isolation (exampleCollaborators 1000 (some "proof") true)
      (exampleSealer 1000 true ((List.range 3).map ordinaryTx))
      ⟨_, rfl, rfl⟩ (Or.inr ⟨_, _, "proof", "sign failed", rfl, rfl, rfl, rfl⟩)⟩

/-! ## The reserved slot -/

/-- With rotation pending and a hard cap of at least one, the value reported
by `maxTxsSizeSealedInnerBlock` is strictly below the hard cap. -/
theorem maxTxsSizeSealedInnerBlock_lt_cap {Tx : Type} (c : Collaborators Tx)
    (s s1 : Sealer Tx) (r : Nat) (hrot : RotationPending s)
    (hcap : 1 ≤ s.m_pbftEngine.maxBlockTransactions)
    (hr : maxTxsSizeSealedInnerBlock c s = Outcome.returns r s1) :
    r < s.m_pbftEngine.maxBlockTransactions := by
  obtain ⟨e, he, hrotate⟩ := hrot
  unfold maxTxsSizeSealedInnerBlock at hr
  simp only [he, hrotate] at hr
  by_cases hge : c.PBFTSealer_maxTxsSizeSealedInnerBlock ≥ s.m_pbftEngine.maxBlockTransactions
  · simp [hge] at hr
    rw [u64Sub_one_of_pos _ hcap s.m_pbftEngine.maxBlockTransactions_lt] at hr
    omega
  · simp [hge] at hr
    omega

/-- C6, as stated, fails for the hard cap 0: with rotation pending the
override reports `0 - 1 = 2 ^ 64 - 1`, the empty pending block is within that
value, yet its count is not below the cap, so a successful round does not take
the append branch (it takes the overwrite branch, whose write is out of
bounds). -/
theorem append_after_override_counterexample :
    RotationPending (exampleSealer 0 true []) ∧
    maxTxsSizeSealedInnerBlock (exampleCollaborators 1000 (some "proof") false)
        (exampleSealer 0 true [])
      = Outcome.returns 18446744073709551615 (exampleSealer 0 true []) ∧
    (exampleSealer 0 true []).m_sealing.block.getTransactionSize
      ≤ 18446744073709551615 ∧
    SuccessfulRound (exampleCollaborators 1000 (some "proof") false)
      (exampleSealer 0 true []) exampleRotatingTx ∧
    ¬ (exampleSealer 0 true []).m_sealing.block.getTransactionSize
      < (exampleSealer 0 true []).m_pbftEngine.maxBlockTransactions ∧
    generateTransactionForRotating (exampleCollaborators 1000 (some "proof") false)
        (exampleSealer 0 true [])
      = Outcome.undefinedBehaviour :=
  ⟨⟨_, rfl, rfl⟩, rfl, by decide, ⟨_, _, "proof", rfl, rfl, rfl, rfl⟩, by decide, rfl⟩

/-- C6 (amended): for every base-policy value, every hard cap of at least one
and every pending block, if rotation is pending and the block holds at most
the value reported by `maxTxsSizeSealedInnerBlock`, then its count is below
`maxBlockTransactions` and a successful `generateTransactionForRotating`
takes the append branch: it returns true with the old transaction list
followed by the rotation transaction, so no ordinary transaction is
evicted. -/
theorem append_after_override {Tx : Type} (c : Collaborators Tx)
    (s s0 : Sealer Tx) (r : Nat) (tx : Tx) (hrot : RotationPending s)
    (hcap : 1 ≤ s.m_pbftEngine.maxBlockTransactions)
    (hr : maxTxsSizeSealedInnerBlock c s = Outcome.returns r s0)
    (hfill : s.m_sealing.block.getTransactionSize ≤ r)
    (hok : SuccessfulRound c s tx) :
    s.m_sealing.block.getTransactionSize < s.m_pbftEngine.maxBlockTransactions ∧
    ∃ s1, generateTransactionForRotating c s = Outcome.returns true s1 ∧
      s1.m_sealing.block.transactions = s.m_sealing.block.transactions ++ [tx] := by
  have hlt : s.m_sealing.block.getTransactionSize < s.m_pbftEngine.maxBlockTransactions :=
    Nat.lt_of_le_of_lt hfill (maxTxsSizeSealedInnerBlock_lt_cap c s s0 r hrot hcap hr)
  exact ⟨hlt, _, generateTransactionForRotating_append c s tx hok hlt, rfl⟩

/-- Hard cap 3, base value 5: the override reports 2, and a block filled to 2
gets the rotation transaction appended. -/
theorem append_after_override_witness :
    maxTxsSizeSealedInnerBlock (exampleCollaborators 5 (some "proof") false)
        (exampleSealer 3 true [ordinaryTx 0, ordinaryTx 1])
      = Outcome.returns 2 (exampleSealer 3 true [ordinaryTx 0, ordinaryTx 1]) ∧
    ((exampleSealer 3 true
        [ordinaryTx 0, ordinaryTx 1]).m_sealing.block.getTransactionSize
      < (exampleSealer 3 true
        [ordinaryTx 0, ordinaryTx 1]).m_pbftEngine.maxBlockTransactions ∧
    ∃ s1, generateTransactionForRotating (exampleCollaborators 5 (some "proof") false)
        (exampleSealer 3 true [ordinaryTx 0, ordinaryTx 1]) =
          Outcome.returns true s1 ∧
      s1.m_sealing.block.transactions =
        (exampleSealer 3 true
          [ordinaryTx 0, ordinaryTx 1]).m_sealing.block.transactions
          ++ [exampleRotatingTx]) :=
  ⟨rfl, append_after_override (exampleCollaborators 5 (some "proof") false)
    (exampleSealer 3 true [ordinaryTx 0, ordinaryTx 1])
    (exampleSealer 3 true [ordinaryTx 0, ordinaryTx 1]) 2 exampleRotatingTx
    ⟨_, rfl, rfl⟩ (by decide) rfl (by decide) ⟨_, _, "proof", rfl, rfl, rfl, rfl⟩⟩

/-- C7, as stated, fails whenever `base > hard_cap`: with hard cap 1000 and
base value 2000 the override returns 999, not `base - 1 = 1999`. -/
theorem override_base_minus_one_counterexample :
    RotationPending (exampleSealer 1000 true []) ∧
    (exampleCollaborators 2000 none false).PBFTSealer_maxTxsSizeSealedInnerBlock
      ≥ (exampleSealer 1000 true []).m_pbftEngine.maxBlockTransactions ∧
    maxTxsSizeSealedInnerBlock (exampleCollaborators 2000 none false)
        (exampleSealer 1000 true [])
      = Outcome.returns 999 (exampleSealer 1000 true []) ∧
    (999 : Nat) ≠
      (exampleCollaborators 2000 none false).PBFTSealer_maxTxsSizeSealedInnerBlock - 1 :=
  ⟨⟨_, rfl, rfl⟩, by decide, rfl, by decide⟩

/-- C7 (amended): with rotation pending and `base ≥ hard_cap` the override
returns `hard_cap - 1` (64-bit unsigned subtraction); for `hard_cap ≥ 1` this
is the natural number `hard_cap - 1`, which equals `base - 1` exactly when
`base = hard_cap`. -/
theorem override_cap_minus_one {Tx : Type} (c : Collaborators Tx) (s : Sealer Tx)
    (hrot : RotationPending s)
    (hge : c.PBFTSealer_maxTxsSizeSealedInnerBlock ≥ s.m_pbftEngine.maxBlockTransactions) :
    maxTxsSizeSealedInnerBlock c s =
      Outcome.returns (u64Sub s.m_pbftEngine.maxBlockTransactions 1) s ∧
    (1 ≤ s.m_pbftEngine.maxBlockTransactions →
      u64Sub s.m_pbftEngine.maxBlockTransactions 1 = s.m_pbftEngine.maxBlockTransactions - 1 ∧
      (u64Sub s.m_pbftEngine.maxBlockTransactions 1 =
          c.PBFTSealer_maxTxsSizeSealedInnerBlock - 1 ↔
        c.PBFTSealer_maxTxsSizeSealedInnerBlock = s.m_pbftEngine.maxBlockTransactions)) := by
  obtain ⟨e, he, hrotate⟩ := hrot
  refine ⟨?_, fun h1 => ?_⟩
  · unfold maxTxsSizeSealedInnerBlock
    simp only [he, hrotate]
    simp [hge]
  · have hsub := u64Sub_one_of_pos _ h1 s.m_pbftEngine.maxBlockTransactions_lt
    refine ⟨hsub, ?_⟩
    rw [hsub]
    omega

/-- Example A of the specification: hard cap 1000 and base value 1000 give
999. -/
theorem override_cap_minus_one_witness :
    maxTxsSizeSealedInnerBlock (exampleCollaborators 1000 none false)
        (exampleSealer 1000 true [])
      = Outcome.returns 999 (exampleSealer 1000 true []) :=
  (override_cap_minus_one (exampleCollaborators 1000 none false)
    (exampleSealer 1000 true []) ⟨_, rfl, rfl⟩ (by decide)).1

/-! ## Which slot is overwritten, and what is kept -/

/-- C8, evaluated on a block above the cap: with hard cap 2 and a pending
block of three ordinary transactions, a successful round returns true and
raises `noteChange`, but it overwrites index 1 (`maxBlockTransactions - 1`),
not the last slot (index 2): the last element is still the ordinary
transaction number 2. -/
theorem overwrite_slot_above_cap_evaluation :
    RotationPending (exampleSealer 2 true [ordinaryTx 0, ordinaryTx 1, ordinaryTx 2]) ∧
    SuccessfulRound (exampleCollaborators 2 (some "proof") false)
      (exampleSealer 2 true [ordinaryTx 0, ordinaryTx 1, ordinaryTx 2]) exampleRotatingTx ∧
    ∃ s1, hookAfterHandleBlock (exampleCollaborators 2 (some "proof") false)
        (exampleSealer 2 true [ordinaryTx 0, ordinaryTx 1, ordinaryTx 2])
          = Outcome.returns true s1 ∧
      s1.m_sealing.block.transactions = [ordinaryTx 0, exampleRotatingTx, ordinaryTx 2] ∧
      s1.m_sealing.block.transactions.getLast? = some (ordinaryTx 2) ∧
      ordinaryTx 2 ≠ exampleRotatingTx ∧
      s1.m_sealing.block.noteChangeCount = 1 :=
  ⟨⟨_, rfl, rfl⟩, ⟨_, _, "proof", rfl, rfl, rfl, rfl⟩, _, rfl, rfl, rfl, by decide, rfl⟩

/-- C9, as stated, fails for the hard cap 0: on a pending block of one
ordinary transaction a successful round (proof produced, transaction built)
takes the overwrite branch with index `0 - 1 = 2 ^ 64 - 1`, an out-of-bounds
write, so the hook returns no block at all, let alone one that differs from
the original in a single slot. -/
theorem frame_of_insertion_counterexample :
    RotationPending (exampleSealer 0 true [ordinaryTx 0]) ∧
    SuccessfulRound (exampleCollaborators 0 (some "proof") false)
      (exampleSealer 0 true [ordinaryTx 0]) exampleRotatingTx ∧
    hookAfterHandleBlock (exampleCollaborators 0 (some "proof") false)
      (exampleSealer 0 true [ordinaryTx 0]) = Outcome.undefinedBehaviour ∧
    ¬ ∃ r s1, hookAfterHandleBlock (exampleCollaborators 0 (some "proof") false)
        (exampleSealer 0 true [ordinaryTx 0]) = Outcome.returns r s1 :=
  ⟨⟨_, rfl, rfl⟩, ⟨_, _, "proof", rfl, rfl, rfl, rfl⟩, rfl,
    fun ⟨_, _, h⟩ => Outcome.noConfusion
      ((show hookAfterHandleBlock (exampleCollaborators 0 (some "proof") false)
          (exampleSealer 0 true [ordinaryTx 0]) = Outcome.undefinedBehaviour from rfl).symm.trans h)⟩

/-- C9 (amended): for a hard cap of at least one, every pending block and
every successful round with rotation pending, the hook returns true and at
most one previously present transaction is lost: either the count was below
the cap (append path) and the new list is the old list followed by the
rotation transaction, or it was not (overwrite path) and the new list has the
same length and is the old list with one single slot replaced by the rotation
transaction, every other index holding what it held before. -/
theorem frame_of_insertion {Tx : Type} (c : Collaborators Tx) (s : Sealer Tx)
    (tx : Tx) (hrot : RotationPending s) (hok : SuccessfulRound c s tx)
    (hcap : 1 ≤ s.m_pbftEngine.maxBlockTransactions) :
    ∃ s1, hookAfterHandleBlock c s = Outcome.returns true s1 ∧
      ((s.m_sealing.block.getTransactionSize < s.m_pbftEngine.maxBlockTransactions ∧
          s1.m_sealing.block.transactions = s.m_sealing.block.transactions ++ [tx]) ∨
        (s.m_pbftEngine.maxBlockTransactions ≤ s.m_sealing.block.getTransactionSize ∧
          s1.m_sealing.block.transactions.length = s.m_sealing.block.transactions.length ∧
          ∃ slot, slot < s.m_sealing.block.transactions.length ∧
            s1.m_sealing.block.transactions = s.m_sealing.block.transactions.set slot tx ∧
            ∀ i, i ≠ slot →
              s1.m_sealing.block.transactions[i]? = s.m_sealing.block.transactions[i]?)) := by
  by_cases hlt : s.m_sealing.block.getTransactionSize < s.m_pbftEngine.maxBlockTransactions
  · exact ⟨_, hookAfterHandleBlock_of_pending c s hrot true _
      (generateTransactionForRotating_append c s tx hok hlt), Or.inl ⟨hlt, rfl⟩⟩
  · refine ⟨_, hookAfterHandleBlock_of_pending c s hrot true _
      (generateTransactionForRotating_overwrite c s tx hok hlt hcap),
      Or.inr ⟨by omega, ?_, s.m_pbftEngine.maxBlockTransactions - 1, ?_, rfl, ?_⟩⟩
    · simp
    · unfold Block.getTransactionSize at hlt
      omega
    · intro i hi
      show (s.m_sealing.block.transactions.set
        (s.m_pbftEngine.maxBlockTransactions - 1) tx)[i]? = s.m_sealing.block.transactions[i]?
      exact List.getElem?_set_ne (Ne.symm hi)

/-- Hard cap 2 on a block of two ordinary transactions: one slot is replaced
by the rotation transaction, the other one kept. -/
theorem frame_of_insertion_witness :
    RotationPending (exampleSealer 2 true [ordinaryTx 0, ordinaryTx 1]) ∧
    SuccessfulRound (exampleCollaborators 2 (some "proof") false)
      (exampleSealer 2 true [ordinaryTx 0, ordinaryTx 1]) exampleRotatingTx ∧
    1 ≤ (exampleSealer 2 true [ordinaryTx 0, ordinaryTx 1]).m_pbftEngine.maxBlockTransactions ∧
    ∃ s1, hookAfterHandleBlock (exampleCollaborators 2 (some "proof") false)
        (exampleSealer 2 true [ordinaryTx 0, ordinaryTx 1]) = Outcome.returns true s1 ∧
      (((exampleSealer 2 true [ordinaryTx 0, ordinaryTx 1]).m_sealing.block.getTransactionSize
            < (exampleSealer 2 true
                [ordinaryTx 0, ordinaryTx 1]).m_pbftEngine.maxBlockTransactions ∧
          s1.m_sealing.block.transactions =
            (exampleSealer 2 true [ordinaryTx 0, ordinaryTx 1]).m_sealing.block.transactions
              ++ [exampleRotatingTx]) ∨
        ((exampleSealer 2 true [ordinaryTx 0, ordinaryTx 1]).m_pbftEngine.maxBlockTransactions
            ≤ (exampleSealer 2 true
                [ordinaryTx 0, ordinaryTx 1]).m_sealing.block.getTransactionSize ∧
          s1.m_sealing.block.transactions.length =
            (exampleSealer 2 true
              [ordinaryTx 0, ordinaryTx 1]).m_sealing.block.transactions.length ∧
          ∃ slot, slot < (exampleSealer 2 true
                [ordinaryTx 0, ordinaryTx 1]).m_sealing.block.transactions.length ∧
            s1.m_sealing.block.transactions =
              (exampleSealer 2 true
                [ordinaryTx 0, ordinaryTx 1]).m_sealing.block.transactions.set slot
                  exampleRotatingTx ∧
            ∀ i, i ≠ slot →
              s1.m_sealing.block.transactions[i]? =
                (exampleSealer 2 true
                  [ordinaryTx 0, ordinaryTx 1]).m_sealing.block.transactions[i]?)) :=
  ⟨⟨_, rfl, rfl⟩, ⟨_, _, "proof", rfl, rfl, rfl, rfl⟩, by decide,
    frame_of_insertion (exampleCollaborators 2 (some "proof") false)
      (exampleSealer 2 true [ordinaryTx 0, ordinaryTx 1]) exampleRotatingTx
      ⟨_, rfl, rfl⟩ ⟨_, _, "proof", rfl, rfl, rfl, rfl⟩ (by decide)⟩

/-! ## The rotation invariant -/

/-- Writing a value that does not occur in a list into one of its slots makes
it occur exactly once. -/
theorem count_set_of_not_mem {α : Type} [DecidableEq α] (l : List α) (a : α) (i : Nat)
    (hi : i < l.length) (hnot : a ∉ l) : (l.set i a).count a = 1 := by
  induction l generalizing i with
  | nil => simp at hi
  | cons b t ih =>
    have hb : b ≠ a := fun h => hnot (h ▸ List.mem_cons_self b t)
    have ht : a ∉ t := fun h => hnot (List.mem_cons_of_mem b h)
    cases i with
    | zero => simp [List.count_cons, List.count_eq_zero_of_not_mem ht]
    | succ j =>
      have hj : j < t.length := by simpa using hi
      simp [List.count_cons, hb, ih j hj ht]

/-- C10, as stated, fails when the round fails softly: rotation is pending
but the VRF proof call returns null, the hook returns false and the pending
block, empty before, is still empty, so it holds no rotation transaction. -/
theorem rotation_invariant_counterexample :
    RotationPending (exampleSealer 1000 true []) ∧
    hookAfterHandleBlock (exampleCollaborators 1000 none false) (exampleSealer 1000 true [])
      = Outcome.returns false (exampleSealer 1000 true []) ∧
    (exampleSealer 1000 true []).m_sealing.block.transactions = [] ∧
    ∀ tx, List.count tx (exampleSealer 1000 true []).m_sealing.block.transactions ≠ 1 :=
  ⟨⟨_, rfl, rfl⟩, rfl, rfl, fun _ h => Nat.noConfusion h⟩

/-- C10 (amended): whenever the rotation decision is true, the round is
successful (proof produced, transaction built), the hard cap is at least one
and the pending block does not already hold the round's rotation transaction,
the hook returns true and the pending block then contains that rotation
transaction exactly once; the transaction is the one the generator built with
the hex of the hash of the chain's current block as its message. -/
theorem rotation_invariant_on_success {Tx : Type} [DecidableEq Tx]
    (c : Collaborators Tx) (s : Sealer Tx) (tx : Tx) (hrot : RotationPending s)
    (hok : SuccessfulRound c s tx)
    (hcap : 1 ≤ s.m_pbftEngine.maxBlockTransactions)
    (hnew : tx ∉ s.m_sealing.block.transactions) :
    ∃ s1, hookAfterHandleBlock c s = Outcome.returns true s1 ∧
      s1.m_sealing.block.transactions.count tx = 1 ∧
      ∃ (txGenerator : TxGenerator) (engine : PBFTEngine) (vrfProof : String),
        c.generateTransactionWithSig txGenerator c.WSM_METHOD_ROTATE_STR c.number
          c.WORKING_SEALER_MGR_ADDRESS engine.keyPair TransactionType.MessageCall
          s.m_vrfPublicKey (c.toHex (c.numberHash c.number)) vrfProof = Except.ok tx := by
  have hmsg : ∃ (txGenerator : TxGenerator) (engine : PBFTEngine) (vrfProof : String),
      c.generateTransactionWithSig txGenerator c.WSM_METHOD_ROTATE_STR c.number
        c.WORKING_SEALER_MGR_ADDRESS engine.keyPair TransactionType.MessageCall
        s.m_vrfPublicKey (c.toHex (c.numberHash c.number)) vrfProof = Except.ok tx := by
    obtain ⟨g, e, p, _, _, _, htx⟩ := hok
    exact ⟨g, e, p, htx⟩
  by_cases hlt : s.m_sealing.block.getTransactionSize < s.m_pbftEngine.maxBlockTransactions
  · refine ⟨_, hookAfterHandleBlock_of_pending c s hrot true _
      (generateTransactionForRotating_append c s tx hok hlt), ?_, hmsg⟩
    show (s.m_sealing.block.transactions ++ [tx]).count tx = 1
    simp [List.count_append, List.count_eq_zero_of_not_mem hnew]
  · refine ⟨_, hookAfterHandleBlock_of_pending c s hrot true _
      (generateTransactionForRotating_overwrite c s tx hok hlt hcap), ?_, hmsg⟩
    show (s.m_sealing.block.transactions.set
      (s.m_pbftEngine.maxBlockTransactions - 1) tx).count tx = 1
    refine count_set_of_not_mem _ _ _ ?_ hnew
    unfold Block.getTransactionSize at hlt
    omega

/-- A full block of two ordinary transactions under hard cap 2 holds the
rotation transaction exactly once after the hook. -/
theorem rotation_invariant_on_success_witness :
    RotationPending (exampleSealer 2 true [ordinaryTx 0, ordinaryTx 1]) ∧
    SuccessfulRound (exampleCollaborators 2 (some "proof") false)
      (exampleSealer 2 true [ordinaryTx 0, ordinaryTx 1]) exampleRotatingTx ∧
    exampleRotatingTx ∉
      (exampleSealer 2 true [ordinaryTx 0, ordinaryTx 1]).m_sealing.block.transactions ∧
    ∃ s1, hookAfterHandleBlock (exampleCollaborators 2 (some "proof") false)
        (exampleSealer 2 true [ordinaryTx 0, ordinaryTx 1]) = Outcome.returns true s1 ∧
      s1.m_sealing.block.transactions.count exampleRotatingTx = 1 ∧
      ∃ (txGenerator : TxGenerator) (engine : PBFTEngine) (vrfProof : String),
        (exampleCollaborators 2 (some "proof") false).generateTransactionWithSig txGenerator
          (exampleCollaborators 2 (some "proof") false).WSM_METHOD_ROTATE_STR
          (exampleCollaborators 2 (some "proof") false).number
          (exampleCollaborators 2 (some "proof") false).WORKING_SEALER_MGR_ADDRESS
          engine.keyPair TransactionType.MessageCall
          (exampleSealer 2 true [ordinaryTx 0, ordinaryTx 1]).m_vrfPublicKey
          ((exampleCollaborators 2 (some "proof") false).toHex
            ((exampleCollaborators 2 (some "proof") false).numberHash
              (exampleCollaborators 2 (some "proof") false).number))
          vrfProof = Except.ok exampleRotatingTx :=
  ⟨⟨_, rfl, rfl⟩, ⟨_, _, "proof", rfl, rfl, rfl, rfl⟩, by decide,
    rotation_invariant_on_success (exampleCollaborators 2 (some "proof") false)
      (exampleSealer 2 true [ordinaryTx 0, ordinaryTx 1]) exampleRotatingTx
      ⟨_, rfl, rfl⟩ ⟨_, _, "proof", rfl, rfl, rfl, rfl⟩ (by decide) (by decide)⟩

/-! ## What a returning round has done -/

/-- With rotation pending, a normal return of the hook is a normal return of
`generateTransactionForRotating` with the same value and state. -/
theorem generateTransactionForRotating_of_hook {Tx : Type} (c : Collaborators Tx)
    (s : Sealer Tx) (hrot : RotationPending s) (r : Bool) (s1 : Sealer Tx)
    (hhook : hookAfterHandleBlock c s = Outcome.returns r s1) :
    generateTransactionForRotating c s = Outcome.returns r s1 := by
  obtain ⟨e, he, hr⟩ := hrot
  unfold hookAfterHandleBlock at hhook
  simp only [he, hr] at hhook
  cases hgen : generateTransactionForRotating c s with
  | returns r0 s0 =>
    rw [hgen] at hhook
    cases r0 <;> simpa using hhook
  | throws x s0 =>
    rw [hgen] at hhook
    simp at hhook
  | undefinedBehaviour =>
    rw [hgen] at hhook
    simp at hhook

/-- When `generateTransactionForRotating` returns true, the proof was
produced, the transaction was built by the generator from the listed
arguments, and the block differs from the old one by that transaction alone:
appended, or written into one existing slot with `noteChange` raised. -/
theorem generateTransactionForRotating_true_inv {Tx : Type} (c : Collaborators Tx)
    (s s1 : Sealer Tx)
    (hgen : generateTransactionForRotating c s = Outcome.returns true s1) :
    ∃ (txGenerator : TxGenerator) (engine : PBFTEngine) (vrfProof : String) (tx : Tx),
      s.m_txGenerator = some txGenerator ∧
      s.m_vrfBasedrPBFTEngine = some engine ∧
      c.curve25519_vrf_proof s.m_privateKey (c.toHex (c.numberHash c.number))
        = some vrfProof ∧
      c.generateTransactionWithSig txGenerator c.WSM_METHOD_ROTATE_STR c.number
        c.WORKING_SEALER_MGR_ADDRESS engine.keyPair TransactionType.MessageCall
        s.m_vrfPublicKey (c.toHex (c.numberHash c.number)) vrfProof = Except.ok tx ∧
      (s1.m_sealing.block.transactions = s.m_sealing.block.transactions ++ [tx] ∨
        ∃ slot, slot < s.m_sealing.block.transactions.length ∧
          s1.m_sealing.block.transactions = s.m_sealing.block.transactions.set slot tx) := by
  unfold generateTransactionForRotating at hgen
  cases hp : c.curve25519_vrf_proof s.m_privateKey (c.toHex (c.numberHash c.number)) with
  | none => simp [hp] at hgen
  | some p =>
    cases hg : s.m_txGenerator with
    | none => simp [hp, hg] at hgen
    | some g =>
      cases he : s.m_vrfBasedrPBFTEngine with
      | none => simp [hp, hg, he] at hgen
      | some e =>
        cases htx : c.generateTransactionWithSig g c.WSM_METHOD_ROTATE_STR c.number
            c.WORKING_SEALER_MGR_ADDRESS e.keyPair TransactionType.MessageCall
            s.m_vrfPublicKey (c.toHex (c.numberHash c.number)) p with
        | error err => simp [hp, hg, he, htx] at hgen
        | ok tx =>
          refine ⟨g, e, p, tx, rfl, rfl, rfl, htx, ?_⟩
          simp only [hp, hg, he, htx] at hgen
          by_cases hlt : s.m_sealing.block.getTransactionSize
              < s.m_pbftEngine.maxBlockTransactions
          · rw [if_pos hlt] at hgen
            injection hgen with _ hs
            left
            rw [← hs]
            rfl
          · rw [if_neg hlt] at hgen
            by_cases hidx : u64Sub s.m_pbftEngine.maxBlockTransactions 1
                < s.m_sealing.block.transactions.length
            · simp only [Block.writeTransaction, if_pos hidx] at hgen
              injection hgen with _ hs
              right
              refine ⟨_, hidx, ?_⟩
              rw [← hs]
              rfl
            · simp only [Block.writeTransaction, if_neg hidx] at hgen
              exact Outcome.noConfusion hgen

/-- C11: for every successful rotation round (rotation pending and the hook
returns true), the VRF proof is `curve25519_vrf_proof(private key, message)`
for message = hex of the hash of the chain's current block, and the
transaction placed in the block (appended, or written into one slot) is the
one built by `generateTransactionWithSig` for the method
`WSM_METHOD_ROTATE_STR`, the chain's current block number, the target
`WORKING_SEALER_MGR_ADDRESS`, the engine's key pair and type `MessageCall`,
with the arguments (VRF public key, message, proof) in this order. -/
theorem rotating_transaction_placed {Tx : Type} (c : Collaborators Tx)
    (s s1 : Sealer Tx) (hrot : RotationPending s)
    (hhook : hookAfterHandleBlock c s = Outcome.returns true s1) :
    ∃ (txGenerator : TxGenerator) (engine : PBFTEngine) (vrfProof : String) (tx : Tx),
      s.m_txGenerator = some txGenerator ∧
      s.m_vrfBasedrPBFTEngine = some engine ∧
      c.curve25519_vrf_proof s.m_privateKey (c.toHex (c.numberHash c.number))
        = some vrfProof ∧
      c.generateTransactionWithSig txGenerator c.WSM_METHOD_ROTATE_STR c.number
        c.WORKING_SEALER_MGR_ADDRESS engine.keyPair TransactionType.MessageCall
        s.m_vrfPublicKey (c.toHex (c.numberHash c.number)) vrfProof = Except.ok tx ∧
      (s1.m_sealing.block.transactions = s.m_sealing.block.transactions ++ [tx] ∨
        ∃ slot, slot < s.m_sealing.block.transactions.length ∧
          s1.m_sealing.block.transactions = s.m_sealing.block.transactions.set slot tx) :=
  generateTransactionForRotating_true_inv c s s1
    (generateTransactionForRotating_of_hook c s hrot true s1 hhook)

/-- Hard cap 3 and a block of two ordinary transactions: the hook returns
true, and the transaction it appended is the generator's result for
(`"pk"`, `"171205"`, `"proof"`). -/
theorem rotating_transaction_placed_witness :
    RotationPending (exampleSealer 3 true [ordinaryTx 0, ordinaryTx 1]) ∧
    ∃ s1, hookAfterHandleBlock (exampleCollaborators 3 (some "proof") false)
        (exampleSealer 3 true [ordinaryTx 0, ordinaryTx 1]) = Outcome.returns true s1 ∧
      s1.m_sealing.block.transactions = [ordinaryTx 0, ordinaryTx 1, exampleRotatingTx] ∧
      ∃ (txGenerator : TxGenerator) (engine : PBFTEngine) (vrfProof : String)
          (tx : RecordedTx),
        (exampleSealer 3 true [ordinaryTx 0, ordinaryTx 1]).m_txGenerator
          = some txGenerator ∧
        (exampleSealer 3 true [ordinaryTx 0, ordinaryTx 1]).m_vrfBasedrPBFTEngine
          = some engine ∧
        (exampleCollaborators 3 (some "proof") false).curve25519_vrf_proof
            (exampleSealer 3 true [ordinaryTx 0, ordinaryTx 1]).m_privateKey
            ((exampleCollaborators 3 (some "proof") false).toHex
              ((exampleCollaborators 3 (some "proof") false).numberHash
                (exampleCollaborators 3 (some "proof") false).number))
          = some vrfProof ∧
        (exampleCollaborators 3 (some "proof") false).generateTransactionWithSig txGenerator
            (exampleCollaborators 3 (some "proof") false).WSM_METHOD_ROTATE_STR
            (exampleCollaborators 3 (some "proof") false).number
            (exampleCollaborators 3 (some "proof") false).WORKING_SEALER_MGR_ADDRESS
            engine.keyPair TransactionType.MessageCall
            (exampleSealer 3 true [ordinaryTx 0, ordinaryTx 1]).m_vrfPublicKey
            ((exampleCollaborators 3 (some "proof") false).toHex
              ((exampleCollaborators 3 (some "proof") false).numberHash
                (exampleCollaborators 3 (some "proof") false).number))
            vrfProof = Except.ok tx ∧
        (s1.m_sealing.block.transactions =
            (exampleSealer 3 true [ordinaryTx 0, ordinaryTx 1]).m_sealing.block.transactions
              ++ [tx] ∨
          ∃ slot, slot <
              (exampleSealer 3 true
                [ordinaryTx 0, ordinaryTx 1]).m_sealing.block.transactions.length ∧
            s1.m_sealing.block.transactions =
              (exampleSealer 3 true
                [ordinaryTx 0, ordinaryTx 1]).m_sealing.block.transactions.set slot tx) :=
  ⟨⟨_, rfl, rfl⟩, _, rfl, rfl,
    rotating_transaction_placed (exampleCollaborators 3 (some "proof") false)
      (exampleSealer 3 true [ordinaryTx 0, ordinaryTx 1]) _ ⟨_, rfl, rfl⟩ rfl⟩

/-! ## Initialisation -/

/-- For an engine that is a `VRFBasedrPBFTEngine`, `initConsensusEngine` is
decided by the VRF key generation on the hex of the first `c_privateKeyLen`
bytes of the consensus secret: a null result throws, a string is stored. In
both cases the thread name, the engine handle, the transaction generator and
the private key have been set. -/
theorem initConsensusEngine_of_capable {Tx : Type} (c : Collaborators Tx)
    (s : Sealer Tx) (hcapable : s.m_pbftEngine.isVRFBasedrPBFTEngine = true) :
    initConsensusEngine c s =
      match c.curve25519_vrf_generate_key_pair
          (c.toHex (s.m_pbftEngine.keyPair.secret.take c.c_privateKeyLen)) with
      | none => Outcome.throws "InitVRFPublicKeyFailed"
          { s with
            m_name := "rPBFTSeal-" ++ toString s.m_pbftEngine.groupId
            m_vrfBasedrPBFTEngine := some s.m_pbftEngine
            m_txGenerator := some
              { groupId := s.m_pbftEngine.groupId
                chainId := c.chainId
                validBlockLimit := c.maxBlockLimit / 2 }
            m_privateKey := c.toHex (s.m_pbftEngine.keyPair.secret.take c.c_privateKeyLen) }
      | some vrfPublicKey => Outcome.returns ()
          { s with
            m_name := "rPBFTSeal-" ++ toString s.m_pbftEngine.groupId
            m_vrfBasedrPBFTEngine := some s.m_pbftEngine
            m_txGenerator := some
              { groupId := s.m_pbftEngine.groupId
                chainId := c.chainId
                validBlockLimit := c.maxBlockLimit / 2 }
            m_privateKey := c.toHex (s.m_pbftEngine.keyPair.secret.take c.c_privateKeyLen)
            m_vrfPublicKey := vrfPublicKey } := by
  unfold initConsensusEngine
  simp only [hcapable, if_true]

/-- For an engine that is not a `VRFBasedrPBFTEngine` the cast yields null and
`initConsensusEngine` dereferences it when it reads the key pair. -/
theorem initConsensusEngine_of_incapable {Tx : Type} (c : Collaborators Tx)
    (s : Sealer Tx) (hplain : s.m_pbftEngine.isVRFBasedrPBFTEngine = false) :
    initConsensusEngine c s = Outcome.undefinedBehaviour := by
  unfold initConsensusEngine
  simp [hplain]

/-- C12, as stated, fails when the engine is not a `VRFBasedrPBFTEngine`: the
VRF key generation would return the string `"pk"` (not null), yet
`initConsensusEngine` does not complete and stores nothing, because it
dereferences the null engine handle when it reads the key pair. -/
theorem initConsensusEngine_key_generation_counterexample :
    (exampleInitCollaborators (some "pk") 1000).curve25519_vrf_generate_key_pair
      ((exampleInitCollaborators (some "pk") 1000).toHex
        ((exampleFreshSealer false).m_pbftEngine.keyPair.secret.take
          (exampleInitCollaborators (some "pk") 1000).c_privateKeyLen)) = some "pk" ∧
    initConsensusEngine (exampleInitCollaborators (some "pk") 1000) (exampleFreshSealer false)
      = Outcome.undefinedBehaviour ∧
    ¬ ∃ s1, initConsensusEngine (exampleInitCollaborators (some "pk") 1000)
        (exampleFreshSealer false) = Outcome.returns () s1 :=
  ⟨rfl, rfl, fun ⟨_, h⟩ => Outcome.noConfusion
    ((show initConsensusEngine (exampleInitCollaborators (some "pk") 1000)
        (exampleFreshSealer false) = Outcome.undefinedBehaviour from rfl).symm.trans h)⟩

/-- C12 (amended): when the engine is a `VRFBasedrPBFTEngine`,
`initConsensusEngine` throws `InitVRFPublicKeyFailed` exactly when
`curve25519_vrf_generate_key_pair` returns null for the hex encoding of the
consensus private key; in every other case it returns normally with the
returned string stored as the sealer's VRF public key (and that hex encoding
stored as its private key). -/
theorem initConsensusEngine_key_generation {Tx : Type} (c : Collaborators Tx)
    (s : Sealer Tx) (hcapable : s.m_pbftEngine.isVRFBasedrPBFTEngine = true) :
    ((∃ s1, initConsensusEngine c s = Outcome.throws "InitVRFPublicKeyFailed" s1) ↔
      c.curve25519_vrf_generate_key_pair
        (c.toHex (s.m_pbftEngine.keyPair.secret.take c.c_privateKeyLen)) = none) ∧
    (∀ vrfPublicKey,
      c.curve25519_vrf_generate_key_pair
        (c.toHex (s.m_pbftEngine.keyPair.secret.take c.c_privateKeyLen))
          = some vrfPublicKey →
      ∃ s1, initConsensusEngine c s = Outcome.returns () s1 ∧
        s1.m_vrfPublicKey = vrfPublicKey ∧
        s1.m_privateKey =
          c.toHex (s.m_pbftEngine.keyPair.secret.take c.c_privateKeyLen)) := by
  have hinit := initConsensusEngine_of_capable c s hcapable
  refine ⟨⟨?_, ?_⟩, ?_⟩
  · rintro ⟨s1, h1⟩
    cases hk : c.curve25519_vrf_generate_key_pair
        (c.toHex (s.m_pbftEngine.keyPair.secret.take c.c_privateKeyLen)) with
    | none => rfl
    | some pk =>
      rw [hk] at hinit
      rw [hinit] at h1
      exact Outcome.noConfusion h1
  · intro hk
    rw [hk] at hinit
    exact ⟨_, hinit⟩
  · intro pk hk
    rw [hk] at hinit
    exact ⟨_, hinit, rfl, rfl⟩

/-- A rotation-capable engine: a null key throws, and the key `"pk"` is
stored. -/
theorem initConsensusEngine_key_generation_witness :
    (exampleFreshSealer true).m_pbftEngine.isVRFBasedrPBFTEngine = true ∧
    (∃ s1, initConsensusEngine (exampleInitCollaborators none 1000) (exampleFreshSealer true)
      = Outcome.throws "InitVRFPublicKeyFailed" s1) ∧
    ∃ s1, initConsensusEngine (exampleInitCollaborators (some "pk") 1000)
        (exampleFreshSealer true) = Outcome.returns () s1 ∧
      s1.m_vrfPublicKey = "pk" ∧
      s1.m_privateKey =
        (exampleInitCollaborators (some "pk") 1000).toHex
          ((exampleFreshSealer true).m_pbftEngine.keyPair.secret.take
            (exampleInitCollaborators (some "pk") 1000).c_privateKeyLen) :=
  ⟨rfl,
    (initConsensusEngine_key_generation (exampleInitCollaborators none 1000)
      (exampleFreshSealer true) rfl).1.2 rfl,
    (initConsensusEngine_key_generation (exampleInitCollaborators (some "pk") 1000)
      (exampleFreshSealer true) rfl).2 "pk" rfl⟩

/-- C13, evaluated on an engine that is not a `VRFBasedrPBFTEngine`: whether
the VRF key generation would succeed or not, `initConsensusEngine` neither
throws nor returns; it stores the null handle, builds the generator and then
dereferences the null handle (undefined behaviour). -/
theorem initConsensusEngine_plain_engine_evaluation :
    (exampleFreshSealer false).m_pbftEngine.isVRFBasedrPBFTEngine = false ∧
    initConsensusEngine (exampleInitCollaborators none 1000) (exampleFreshSealer false)
      = Outcome.undefinedBehaviour ∧
    initConsensusEngine (exampleInitCollaborators (some "pk0") 1000) (exampleFreshSealer false)
      = Outcome.undefinedBehaviour ∧
    ∀ x s1, initConsensusEngine (exampleInitCollaborators none 1000) (exampleFreshSealer false)
      ≠ Outcome.throws x s1 :=
  ⟨rfl, rfl, rfl, fun _ _ h => Outcome.noConfusion
    ((show initConsensusEngine (exampleInitCollaborators none 1000)
        (exampleFreshSealer false) = Outcome.undefinedBehaviour from rfl).symm.trans h)⟩

/-- C14: for every maximum block limit `L` of the transaction pool, whenever
`initConsensusEngine` returns or throws, the sealer's transaction generator is
the one constructed from the engine's group id, the configured chain id and
the validity window `L / 2`; for an engine that is a `VRFBasedrPBFTEngine` it
does return or throw `InitVRFPublicKeyFailed`. The window is the floor of
`L / 2`: `2 * window ≤ L < 2 * window + 2`. -/
theorem initConsensusEngine_txGenerator {Tx : Type} (c : Collaborators Tx)
    (s : Sealer Tx) :
    (∀ s1, initConsensusEngine c s = Outcome.returns () s1 →
      s1.m_txGenerator = some
        { groupId := s.m_pbftEngine.groupId, chainId := c.chainId
          validBlockLimit := c.maxBlockLimit / 2 }) ∧
    (∀ x s1, initConsensusEngine c s = Outcome.throws x s1 →
      s1.m_txGenerator = some
        { groupId := s.m_pbftEngine.groupId, chainId := c.chainId
          validBlockLimit := c.maxBlockLimit / 2 }) ∧
    (s.m_pbftEngine.isVRFBasedrPBFTEngine = true →
      ∃ s1, (initConsensusEngine c s = Outcome.returns () s1 ∨
          initConsensusEngine c s = Outcome.throws "InitVRFPublicKeyFailed" s1) ∧
        s1.m_txGenerator = some
          { groupId := s.m_pbftEngine.groupId, chainId := c.chainId
            validBlockLimit := c.maxBlockLimit / 2 }) ∧
    2 * (c.maxBlockLimit / 2) ≤ c.maxBlockLimit ∧
    c.maxBlockLimit < 2 * (c.maxBlockLimit / 2) + 2 := by
  have htotal : s.m_pbftEngine.isVRFBasedrPBFTEngine = true →
      ∃ s1, (initConsensusEngine c s = Outcome.returns () s1 ∨
          initConsensusEngine c s = Outcome.throws "InitVRFPublicKeyFailed" s1) ∧
        s1.m_txGenerator = some
          { groupId := s.m_pbftEngine.groupId, chainId := c.chainId
            validBlockLimit := c.maxBlockLimit / 2 } := by
    intro hcapable
    have hinit := initConsensusEngine_of_capable c s hcapable
    cases hk : c.curve25519_vrf_generate_key_pair
        (c.toHex (s.m_pbftEngine.keyPair.secret.take c.c_privateKeyLen)) with
    | none =>
      rw [hk] at hinit
      exact ⟨_, Or.inr hinit, rfl⟩
    | some pk =>
      rw [hk] at hinit
      exact ⟨_, Or.inl hinit, rfl⟩
  have hstate : ∀ (o : Outcome Unit (Sealer Tx)), initConsensusEngine c s = o →
      ∀ s1, (o = Outcome.returns () s1 ∨ ∃ x, o = Outcome.throws x s1) →
      s1.m_txGenerator = some
        { groupId := s.m_pbftEngine.groupId, chainId := c.chainId
          validBlockLimit := c.maxBlockLimit / 2 } := by
    intro o ho s1 hs1
    cases hb : s.m_pbftEngine.isVRFBasedrPBFTEngine with
    | false =>
      rw [initConsensusEngine_of_incapable c s hb] at ho
      subst ho
      rcases hs1 with h | ⟨x, h⟩ <;> exact Outcome.noConfusion h
    | true =>
      obtain ⟨s2, hs2, hgen⟩ := htotal hb
      rcases hs2 with h2 | h2 <;> rw [h2] at ho <;> subst ho
      · rcases hs1 with h | ⟨x, h⟩
        · injection h with _ hs
          rw [← hs]
          exact hgen
        · exact Outcome.noConfusion h
      · rcases hs1 with h | ⟨x, h⟩
        · exact Outcome.noConfusion h
        · injection h with _ hs
          rw [← hs]
          exact hgen
  refine ⟨fun s1 h => hstate _ h s1 (Or.inl rfl), fun x s1 h => hstate _ h s1 (Or.inr ⟨x, rfl⟩),
    htotal, ?_, ?_⟩
  · omega
  · omega

/-- An odd limit: `L = 1001` gives the window 500. -/
theorem initConsensusEngine_txGenerator_witness :
    (exampleFreshSealer true).m_pbftEngine.isVRFBasedrPBFTEngine = true ∧
    (exampleInitCollaborators (some "pk") 1001).maxBlockLimit = 1001 ∧
    ∃ s1, (initConsensusEngine (exampleInitCollaborators (some "pk") 1001)
          (exampleFreshSealer true) = Outcome.returns () s1 ∨
        initConsensusEngine (exampleInitCollaborators (some "pk") 1001)
          (exampleFreshSealer true) = Outcome.throws "InitVRFPublicKeyFailed" s1) ∧
      s1.m_txGenerator = some { groupId := 1, chainId := 1, validBlockLimit := 500 } :=
  ⟨rfl, rfl, (initConsensusEngine_txGenerator (exampleInitCollaborators (some "pk") 1001)
    (exampleFreshSealer true)).2.2.1 rfl⟩

/-! ## Return value of the hook, index safety, and the reported bound -/

/-- C15: the hook returns false if and only if rotation is pending and
`generateTransactionForRotating` returns false (with the same state); when
the engine handle is set and no rotation is pending it returns true with the
state unchanged; when rotation is pending and
`generateTransactionForRotating` returns true (the transaction was inserted)
it returns true with that state; and it returns true in no other case. -/
theorem hookAfterHandleBlock_result {Tx : Type} (c : Collaborators Tx) (s : Sealer Tx) :
    (∀ s1, hookAfterHandleBlock c s = Outcome.returns false s1 ↔
      (RotationPending s ∧ generateTransactionForRotating c s = Outcome.returns false s1)) ∧
    (∀ engine, s.m_vrfBasedrPBFTEngine = some engine → engine.shouldRotateSealers = false →
      hookAfterHandleBlock c s = Outcome.returns true s) ∧
    (RotationPending s → ∀ s1,
      generateTransactionForRotating c s = Outcome.returns true s1 →
      hookAfterHandleBlock c s = Outcome.returns true s1) ∧
    (∀ s1, hookAfterHandleBlock c s = Outcome.returns true s1 →
      (∃ engine, s.m_vrfBasedrPBFTEngine = some engine ∧
          engine.shouldRotateSealers = false ∧ s1 = s) ∨
        (RotationPending s ∧
          generateTransactionForRotating c s = Outcome.returns true s1)) := by
  have hno : ∀ engine, s.m_vrfBasedrPBFTEngine = some engine →
      engine.shouldRotateSealers = false →
      hookAfterHandleBlock c s = Outcome.returns true s := by
    intro e he hr
    unfold hookAfterHandleBlock
    simp [he, hr]
  have hcases : ∀ r s1, hookAfterHandleBlock c s = Outcome.returns r s1 →
      (∃ engine, s.m_vrfBasedrPBFTEngine = some engine ∧
          engine.shouldRotateSealers = false) ∨ RotationPending s := by
    intro r s1 h
    cases he : s.m_vrfBasedrPBFTEngine with
    | none =>
      unfold hookAfterHandleBlock at h
      simp [he] at h
    | some e =>
      cases hr : e.shouldRotateSealers with
      | false => exact Or.inl ⟨e, rfl, hr⟩
      | true => exact Or.inr ⟨e, he, hr⟩
  refine ⟨fun s1 => ⟨fun h => ?_, fun h => ?_⟩, hno, fun hrot s1 hgen => ?_, fun s1 h => ?_⟩
  · rcases hcases false s1 h with ⟨e, he, hr⟩ | hrot
    · rw [hno e he hr] at h
      injection h with hb _
      exact Bool.noConfusion hb
    · exact ⟨hrot, generateTransactionForRotating_of_hook c s hrot false s1 h⟩
  · exact hookAfterHandleBlock_of_pending c s h.1 false s1 h.2
  · exact hookAfterHandleBlock_of_pending c s hrot true s1 hgen
  · rcases hcases true s1 h with ⟨e, he, hr⟩ | hrot
    · rw [hno e he hr] at h
      injection h with _ hs
      exact Or.inl ⟨e, he, hr, hs.symm⟩
    · exact Or.inr ⟨hrot, generateTransactionForRotating_of_hook c s hrot true s1 h⟩

/-- Rotation pending with a failing generator: `generateTransactionForRotating`
returns false, hence so does the hook. -/
theorem hookAfterHandleBlock_result_witness :
    RotationPending (exampleSealer 1000 true [ordinaryTx 0]) ∧
    generateTransactionForRotating (exampleCollaborators 1000 (some "proof") true)
        (exampleSealer 1000 true [ordinaryTx 0])
      = Outcome.returns false (exampleSealer 1000 true [ordinaryTx 0]) ∧
    hookAfterHandleBlock (exampleCollaborators 1000 (some "proof") true)
        (exampleSealer 1000 true [ordinaryTx 0])
      = Outcome.returns false (exampleSealer 1000 true [ordinaryTx 0]) :=
  ⟨⟨_, rfl, rfl⟩, rfl,
    ((hookAfterHandleBlock_result (exampleCollaborators 1000 (some "proof") true)
      (exampleSealer 1000 true [ordinaryTx 0])).1
        (exampleSealer 1000 true [ordinaryTx 0])).2 ⟨⟨_, rfl, rfl⟩, rfl⟩⟩

/-- C16: for a hard cap of at least one and a pending block whose count is not
below the cap, the index `maxBlockTransactions - 1` of the overwrite branch is
computed without wrapping and is strictly less than the block's count, so the
indexed write is in bounds (it yields a block) and a successful round returns
true rather than running into undefined behaviour. -/
theorem overwrite_index_in_bounds {Tx : Type} (s : Sealer Tx)
    (hcap : 1 ≤ s.m_pbftEngine.maxBlockTransactions)
    (hge : ¬ s.m_sealing.block.getTransactionSize < s.m_pbftEngine.maxBlockTransactions) :
    u64Sub s.m_pbftEngine.maxBlockTransactions 1 = s.m_pbftEngine.maxBlockTransactions - 1 ∧
    u64Sub s.m_pbftEngine.maxBlockTransactions 1 < s.m_sealing.block.getTransactionSize ∧
    (∀ tx, s.m_sealing.block.writeTransaction
        (u64Sub s.m_pbftEngine.maxBlockTransactions 1) tx =
      some { s.m_sealing.block with
        transactions := s.m_sealing.block.transactions.set
          (s.m_pbftEngine.maxBlockTransactions - 1) tx }) ∧
    (∀ (c : Collaborators Tx) (tx : Tx), SuccessfulRound c s tx →
      ∃ s1, generateTransactionForRotating c s = Outcome.returns true s1) := by
  have hsub := u64Sub_one_of_pos _ hcap s.m_pbftEngine.maxBlockTransactions_lt
  have hidx : s.m_pbftEngine.maxBlockTransactions - 1 < s.m_sealing.block.transactions.length := by
    unfold Block.getTransactionSize at hge
    omega
  refine ⟨hsub, ?_, ?_, ?_⟩
  · rw [hsub]
    exact hidx
  · intro tx
    rw [hsub]
    simp only [Block.writeTransaction, if_pos hidx]
  · intro c tx hok
    exact ⟨_, generateTransactionForRotating_overwrite c s tx hok hge hcap⟩

/-- Hard cap 2 and a block of three transactions: index 1 is in bounds. -/
theorem overwrite_index_in_bounds_witness :
    u64Sub (exampleSealer 2 true
        [ordinaryTx 0, ordinaryTx 1, ordinaryTx 2]).m_pbftEngine.maxBlockTransactions 1 = 1 ∧
    (1 : Nat) < (exampleSealer 2 true
        [ordinaryTx 0, ordinaryTx 1, ordinaryTx 2]).m_sealing.block.getTransactionSize ∧
    u64Sub (exampleSealer 2 true
        [ordinaryTx 0, ordinaryTx 1, ordinaryTx 2]).m_pbftEngine.maxBlockTransactions 1
      < (exampleSealer 2 true
        [ordinaryTx 0, ordinaryTx 1, ordinaryTx 2]).m_sealing.block.getTransactionSize :=
  ⟨rfl, by decide,
    (overwrite_index_in_bounds (exampleSealer 2 true [ordinaryTx 0, ordinaryTx 1, ordinaryTx 2])
      (by decide) (by decide)).2.1⟩

/-- C17: for every base-policy value and every hard cap of at least one, with
rotation pending `maxTxsSizeSealedInnerBlock` returns `min base (cap - 1)`,
where `cap - 1` is computed without wraparound; the value is strictly below
the hard cap and never greater than the base value. -/
theorem maxTxsSizeSealedInnerBlock_min {Tx : Type} (c : Collaborators Tx) (s : Sealer Tx)
    (hrot : RotationPending s) (hcap : 1 ≤ s.m_pbftEngine.maxBlockTransactions) :
    maxTxsSizeSealedInnerBlock c s =
      Outcome.returns
        (min c.PBFTSealer_maxTxsSizeSealedInnerBlock (s.m_pbftEngine.maxBlockTransactions - 1))
        s ∧
    u64Sub s.m_pbftEngine.maxBlockTransactions 1 = s.m_pbftEngine.maxBlockTransactions - 1 ∧
    min c.PBFTSealer_maxTxsSizeSealedInnerBlock (s.m_pbftEngine.maxBlockTransactions - 1)
      < s.m_pbftEngine.maxBlockTransactions ∧
    min c.PBFTSealer_maxTxsSizeSealedInnerBlock (s.m_pbftEngine.maxBlockTransactions - 1)
      ≤ c.PBFTSealer_maxTxsSizeSealedInnerBlock := by
  have hsub := u64Sub_one_of_pos _ hcap s.m_pbftEngine.maxBlockTransactions_lt
  obtain ⟨e, he, hr⟩ := hrot
  refine ⟨?_, hsub, by omega, by omega⟩
  unfold maxTxsSizeSealedInnerBlock
  simp only [he, hr]
  by_cases hge : c.PBFTSealer_maxTxsSizeSealedInnerBlock ≥ s.m_pbftEngine.maxBlockTransactions
  · have hmin : min c.PBFTSealer_maxTxsSizeSealedInnerBlock
        (s.m_pbftEngine.maxBlockTransactions - 1) = s.m_pbftEngine.maxBlockTransactions - 1 := by
      omega
    simp [hge, hsub, hmin]
  · have hmin : min c.PBFTSealer_maxTxsSizeSealedInnerBlock
        (s.m_pbftEngine.maxBlockTransactions - 1) = c.PBFTSealer_maxTxsSizeSealedInnerBlock := by
      omega
    simp [hge, hmin]

/-- Hard cap 1000, base value 2000: the reported value is 999. -/
theorem maxTxsSizeSealedInnerBlock_min_witness :
    RotationPending (exampleSealer 1000 true []) ∧
    1 ≤ (exampleSealer 1000 true []).m_pbftEngine.maxBlockTransactions ∧
    maxTxsSizeSealedInnerBlock (exampleCollaborators 2000 none false)
        (exampleSealer 1000 true [])
      = Outcome.returns 999 (exampleSealer 1000 true []) :=
  ⟨⟨_, rfl, rfl⟩, by decide,
    (maxTxsSizeSealedInnerBlock_min (exampleCollaborators 2000 none false)
      (exampleSealer 1000 true []) ⟨_, rfl, rfl⟩ (by decide)).1⟩

end VRFBasedrPBFTSealer
